import Mathlib

/-!
Shallow embedding of the validation orchestration subsystem of
src/helpers/training/validation.py, together with theorems settling the
frozen claims about it.

Python values that flow through the embedded functions are modelled by the
inductive type PyV (None, int, str, tensor handle, tuple, list).  Python
exceptions are modelled by the Except monad over PyErr.  Tensor device and
dtype moves (the .to calls) are modelled as identity on tensor handles,
since they do not change the value observed by any claim.  String
primitives of Python (split, substring containment, isdigit, int parsing)
are modelled by structural recursion over the character list of the string
so that every theorem can be checked by kernel evaluation.
-/

/-- Python exception kinds raised by the embedded code. -/
inductive PyErr where
  | attributeError : PyErr
  | valueError (msg : String) : PyErr
  | assertionError : PyErr
  | notImplementedError : PyErr
  | zeroDivisionError : PyErr
  | exn : PyErr
deriving DecidableEq, Repr

/-- Python values handled by the embedded fragment of validation.py. -/
inductive PyV where
  | pynone : PyV
  | int (n : Int) : PyV
  | str (s : String) : PyV
  | tensor (id : Nat) : PyV
  | tup (a b : PyV) : PyV
  | list (xs : List PyV) : PyV

/-- Splitting a character list at every occurrence of a separator
character; mirrors the Python str.split method for the one-character
separators used by validation.py. -/
def splitOnChar (c : Char) : List Char → List (List Char)
  | [] => [[]]
  | x :: rest =>
    let r := splitOnChar c rest
    if x = c then [] :: r
    else
      match r with
      | [] => [[x]]
      | y :: ys => (x :: y) :: ys

/-- Whether the first character list is an initial segment of the second. -/
def charsBeginWith : List Char → List Char → Bool
  | [], _ => true
  | _ :: _, [] => false
  | a :: as, b :: bs => a = b && charsBeginWith as bs

/-- Whether the first character list occurs contiguously inside the
second; mirrors the Python in operator on strings. -/
def charsContain (needle : List Char) (haystack : List Char) : Bool :=
  match haystack with
  | [] => needle.isEmpty
  | _ :: rest => charsBeginWith needle haystack || charsContain needle rest

/-- Python substring containment test (the in operator on strings). -/
def pyInStr (needle haystack : String) : Bool :=
  charsContain needle.data haystack.data

/-- Python str.isdigit: true iff the string is non-empty and all of its
characters are digits. -/
def pyIsDigit (s : String) : Bool :=
  !s.data.isEmpty && s.data.all Char.isDigit

/-- Numeric value of a list of decimal digit characters. -/
def digitsToNat (xs : List Char) : Nat :=
  xs.foldl (fun a c => a * 10 + (c.toNat - 48)) 0

/-- Python int(s) on the character list of a string: an optional sign
followed by at least one digit parses, anything else raises ValueError. -/
def pyIntChars (xs : List Char) : Except PyErr Int :=
  match xs with
  | '-' :: rest =>
    if !rest.isEmpty && rest.all Char.isDigit then .ok (-(digitsToNat rest : Int))
    else .error (.valueError "invalid literal for int")
  | '+' :: rest =>
    if !rest.isEmpty && rest.all Char.isDigit then .ok (digitsToNat rest)
    else .error (.valueError "invalid literal for int")
  | _ =>
    if !xs.isEmpty && xs.all Char.isDigit then .ok (digitsToNat xs)
    else .error (.valueError "invalid literal for int")

/-- Python int(s) on a string value. -/
def pyIntStr (s : String) : Except PyErr Int :=
  pyIntChars s.data

/-- Python int(x) on an embedded value: ints pass through, strings are
parsed, anything else fails. -/
def pyIntOf (v : PyV) : Except PyErr Int :=
  match v with
  | .int n => .ok n
  | .str s => pyIntStr s
  | _ => .error (.valueError "int argument must be a string or a number")

/-- The message of the ValueError raised for undersized DeepFloyd stage 2
resolutions (the ConfigurationError of the spec taxonomy). -/
def df2Msg : String := "Cannot use less than 256 resolution for DeepFloyd stage 2."

/-- Embedding of parse_validation_resolution (validation.py lines 352-374,
the later of the two module-level definitions, which shadows the earlier
one).  The model_type argument stands for StateTracker.get_args().model_type.
Note that the digit branch returns the original value twice, so a digit
string yields a pair of strings, not of ints, and that a token that is
neither int-like nor contains an x falls through both branches and returns
Python None. -/
def parse_validation_resolution (model_type : String) (input_str : PyV) :
    Except PyErr PyV := do
  let is_df_ii := pyInStr "deepfloyd-stage2" model_type
  let isIntInstance := match input_str with | .int _ => true | _ => false
  let isDigitStr := match input_str with | .str s => pyIsDigit s | _ => false
  if isIntInstance || isDigitStr then
    if is_df_ii then
      let n ← pyIntOf input_str
      if n < 256 then
        throw (.valueError df2Msg)
    return .tup input_str input_str
  let hasX := match input_str with | .str s => charsContain ['x'] s.data | _ => false
  if hasX then
    match input_str with
    | .str s =>
      match splitOnChar 'x' s.data with
      | p0 :: p1 :: _ => do
        if is_df_ii then
          let a ← pyIntChars p0
          if a < 256 then
            throw (.valueError df2Msg)
          else
            let b ← pyIntChars p1
            if b < 256 then
              throw (.valueError df2Msg)
        let w ← pyIntChars p0
        let h ← pyIntChars p1
        return .tup (.int w) (.int h)
      | _ => throw .exn
    | _ => throw .exn
  return .pynone

/-- Embedding of get_validation_resolutions (validation.py lines 333-349).
The validation_resolution_parameter argument stands for
StateTracker.get_args().validation_resolution. -/
def get_validation_resolutions (model_type : String)
    (validation_resolution_parameter : PyV) : Except PyErr (List PyV) :=
  match validation_resolution_parameter with
  | .str s =>
    if charsContain [','] s.data then
      (splitOnChar ',' s.data).mapM
        (fun res => parse_validation_resolution model_type (.str (String.mk res)))
    else do
      return [← parse_validation_resolution model_type (.str s)]
  | v => do
    return [← parse_validation_resolution model_type v]

/-- The slice of the Validation constructor that assigns
validation_resolutions (validation.py lines 436-443): when the model_type
contains deepfloyd-stage2 the list is the literal singleton base-256 and
get_validation_resolutions is not called at all; otherwise the parsed
resolutions are used. -/
def init_validation_resolutions (model_type : String)
    (validation_resolution : PyV) : Except PyErr (List PyV) :=
  let deepfloyd_stage2 := pyInStr "deepfloyd-stage2" model_type
  if !deepfloyd_stage2 then
    get_validation_resolutions model_type validation_resolution
  else
    .ok [.str "base-256"]

/-- The slice of Validation.validate_prompt that computes the generation
width and height for one matrix item (validation.py lines 1193-1208): with
an input image, deepfloyd stage 2 scales both image dimensions by 4,
controlnet and dataset img2img use the image size as is, and any other
family raises ValueError; without an input image the resolution entry is
tuple-unpacked into width and height. -/
def effective_resolution (deepfloyd_stage2 controlnet validation_using_datasets : Bool)
    (validation_input_image : Option (Nat × Nat)) (resolution : PyV) :
    Except PyErr (PyV × PyV) :=
  match validation_input_image with
  | some wh =>
    if deepfloyd_stage2 then
      .ok (.int (wh.1 * 4), .int (wh.2 * 4))
    else if controlnet || validation_using_datasets then
      .ok (.int wh.1, .int wh.2)
    else
      .error (.valueError "Validation input images are not supported for this model type.")
  | none =>
    match resolution with
    | .tup a b => .ok (a, b)
    | .str s =>
      match s.data with
      | [c1, c2] => .ok (.str (String.mk [c1]), .str (String.mk [c2]))
      | _ => .error (.valueError "cannot unpack resolution")
    | _ => .error (.valueError "cannot unpack resolution")

/-- Configuration fields of the gate (validation.py should_perform_validation). -/
structure GateArgs where
  validation_steps : Nat
  gradient_accumulation_steps : Nat

/-- State of the Validation object read by should_perform_validation.  The
constructor of Validation defines an attribute named deepspeed; no
attribute named deepseed is ever defined, so reading self.deepseed raises
AttributeError. -/
structure GateState where
  args : GateArgs
  global_step : Nat
  global_resume_step : Nat
  is_main_process : Bool
  deepspeed : Bool

/-- Python modulo on naturals, raising ZeroDivisionError on a zero divisor. -/
def pyMod (a b : Nat) : Except PyErr Nat :=
  if b = 0 then .error .zeroDivisionError else .ok (a % b)

/-- The truthiness of the should_do_intermediary_validation expression of
validation.py lines 906-911, with the short-circuit evaluation order of
the Python and chain. -/
def should_do_intermediary_validation (v : GateState) (step : Nat)
    (validation_prompts : List String) : Except PyErr Bool := do
  if validation_prompts.isEmpty then
    return false
  let r1 ← pyMod v.global_step v.args.validation_steps
  if r1 != 0 then
    return false
  let r2 ← pyMod step v.args.gradient_accumulation_steps
  if r2 != 0 then
    return false
  return decide (v.global_step > v.global_resume_step)

/-- Embedding of Validation.should_perform_validation (validation.py lines
905-915).  The source reads self.deepseed, a misspelling of the attribute
deepspeed set by the constructor, so whenever the left disjunct is truthy
and the process is not the main process the method raises AttributeError
instead of consulting the deepspeed flag. -/
def should_perform_validation (v : GateState) (step : Nat)
    (validation_prompts : List String) (validation_type : String) :
    Except PyErr Bool := do
  let sdi ← should_do_intermediary_validation v step validation_prompts
  let is_final_validation := validation_type == "final"
  if is_final_validation || sdi then
    if v.is_main_process then
      return true
    else
      throw .attributeError
  else
    return false

/-- Lookup in a Python dict modelled as an insertion-ordered association
list. -/
def dget (d : List (String × α)) (k : String) : Option α :=
  (d.find? (fun kv => kv.1 == k)).map (fun kv => kv.2)

/-- Key membership in a Python dict. -/
def dHasKey (d : List (String × α)) (k : String) : Bool :=
  (d.find? (fun kv => kv.1 == k)).isSome

/-- Assignment d[k] = v into a Python dict: replaces the value in place if
the key exists, appends at the end otherwise. -/
def dset (d : List (String × α)) (k : String) (v : α) : List (String × α) :=
  if dHasKey d k then
    d.map (fun kv => if kv.1 == k then (k, v) else kv)
  else
    d ++ [(k, v)]

/-- Python dict.update: inserts every entry of the second dict into the
first, in order. -/
def dUpdate (d new : List (String × α)) : List (String × α) :=
  new.foldl (fun acc kv => dset acc kv.1 kv.2) d

/-- The .to(device=..., dtype=...) method call: a move of a tensor is
modelled as identity, any non-tensor value (in particular Python None) has
no such attribute and raises AttributeError. -/
def pyTo (v : PyV) : Except PyErr PyV :=
  match v with
  | .tensor t => .ok (.tensor t)
  | _ => .error .attributeError

/-- Viewing a value as a Python sequence of its elements, as required by
len() and by iterable unpacking. -/
def asSeq (v : PyV) : Except PyErr (List PyV) :=
  match v with
  | .list xs => .ok xs
  | .tup a b => .ok [a, b]
  | _ => .error .exn

/-- Subscript access v[0]. -/
def pyIndex0 (v : PyV) : Except PyErr PyV := do
  match (← asSeq v) with
  | x :: _ => .ok x
  | [] => .error .exn

/-- Whether type(v) is tuple or type(v) is list. -/
def isListOrTup (v : PyV) : Bool :=
  match v with
  | .list _ => true
  | .tup _ _ => true
  | _ => false

/-- Whether v is Python None. -/
def isPyNone (v : PyV) : Bool :=
  match v with
  | .pynone => true
  | _ => false

/-- Embedding of Validation._gather_prompt_embeds (validation.py lines
598-723).  The cache_result argument is the value returned by the external
call embed_cache.compute_embeddings_for_prompts for this prompt; the three
negative arguments are the current values of the
validation_negative_prompt_embeds, validation_negative_pooled_embeds and
validation_negative_prompt_mask attributes.  The returned association list
models the prompt_embeds dict in insertion order.  Note that for the
sdxl/sd3/kolors/flux branch a 3- or 4-element cache result binds
current_validation_time_ids, but the lines that would copy it into the
dict (651-652) are commented out in the source, so no time_ids key is ever
produced; the prompt mask from a 4-element result reaches the dict only
through the mask-family block at lines 708-721. -/
def gather_prompt_embeds (model_family : String)
    (flux_attention_masked_training : Bool)
    (negEmbeds negPooled negMask : PyV)
    (cache_result : PyV) : Except PyErr (List (String × PyV)) := do
  let mut prompt_embeds : List (String × PyV) := []
  let mut current_validation_prompt_mask : PyV := .pynone
  let mut current_validation_prompt_embeds : PyV := .pynone
  let mut validation_negative_prompt_embeds : PyV := negEmbeds
  let mut validation_negative_prompt_mask : PyV := negMask
  if model_family == "sdxl" || model_family == "sd3" || model_family == "kolors"
      || model_family == "flux" then
    let _embed ← asSeq cache_result
    let mut current_validation_time_ids : Option PyV := none
    let mut current_validation_pooled_embeds : PyV := .pynone
    match _embed with
    | [pe, pooled] =>
      current_validation_prompt_embeds := pe
      current_validation_pooled_embeds := pooled
    | [pe, pooled, tids] =>
      current_validation_prompt_embeds := pe
      current_validation_pooled_embeds := pooled
      current_validation_time_ids := some tids
    | [pe, pooled, tids, mask] =>
      current_validation_prompt_embeds := pe
      current_validation_pooled_embeds := pooled
      current_validation_time_ids := some tids
      current_validation_prompt_mask := mask
    | _ =>
      throw (.valueError "Unexpected number of embeddings returned from cache")
    current_validation_pooled_embeds ← pyTo current_validation_pooled_embeds
    if let some tids := current_validation_time_ids then
      current_validation_time_ids := some (← pyTo tids)
    let validation_negative_pooled_embeds ← pyTo negPooled
    prompt_embeds := dset prompt_embeds "pooled_prompt_embeds"
      (← pyTo current_validation_pooled_embeds)
    prompt_embeds := dset prompt_embeds "negative_pooled_prompt_embeds"
      validation_negative_pooled_embeds
  else if model_family == "legacy" || model_family == "pixart_sigma"
      || model_family == "smoldit" then
    current_validation_prompt_embeds := cache_result
    if model_family == "pixart_sigma" || model_family == "smoldit" then
      match (← asSeq current_validation_prompt_embeds) with
      | [a, b] =>
        current_validation_prompt_embeds := a
        current_validation_prompt_mask := b
      | _ => throw (.valueError "cannot unpack embeddings")
      current_validation_prompt_embeds ←
        pyTo (← pyIndex0 current_validation_prompt_embeds)
      if isListOrTup validation_negative_prompt_embeds then
        match (← asSeq (← pyIndex0 validation_negative_prompt_embeds)) with
        | [x, y] =>
          validation_negative_prompt_embeds := x
          validation_negative_prompt_mask := y
        | _ => throw (.valueError "cannot unpack embeddings")
    else
      current_validation_prompt_embeds ←
        pyTo (← pyIndex0 current_validation_prompt_embeds)
  else
    throw .notImplementedError
  current_validation_prompt_embeds ← pyTo current_validation_prompt_embeds
  validation_negative_prompt_embeds ← pyTo validation_negative_prompt_embeds
  prompt_embeds := dset prompt_embeds "prompt_embeds" current_validation_prompt_embeds
  prompt_embeds := dset prompt_embeds "negative_prompt_embeds"
    validation_negative_prompt_embeds
  if model_family == "pixart_sigma" || model_family == "smoldit"
      || (model_family == "flux" && flux_attention_masked_training) then
    if isPyNone current_validation_prompt_mask then
      throw .assertionError
    prompt_embeds := dset prompt_embeds "prompt_mask" current_validation_prompt_mask
    prompt_embeds := dset prompt_embeds "negative_mask" validation_negative_prompt_mask
  return prompt_embeds

/-- Generated images are abstract handles. -/
abbrev GenImage := Nat

/-- The body of the per-resolution loop of Validation.validate_prompt
(validation.py lines 1186-1340), written as structural recursion over the
remaining resolutions with the accumulated validation_images dict.  The
gather argument models the outcome of the self._gather_prompt_embeds call
at each loop iteration (the embedding cache behind it is external state,
so the outcome may differ between iterations); the gen argument models the
outcome of the pipeline invocation together with the post-processing of
its image list (lines 1261-1333).  A failure of gather is the except
branch at lines 1253-1259 and skips only this resolution; a failure of gen
is the except branch at lines 1334-1340 and also skips only this
resolution; the resolution unpacking at lines 1193-1208 happens outside
both try blocks, so its exceptions propagate. -/
def validate_prompt_loop (deepfloyd_stage2 controlnet validation_using_datasets : Bool)
    (validation_input_image : Option (Nat × Nat))
    (gather : PyV → Except PyErr (List (String × PyV)))
    (gen : PyV → List (String × PyV) → Except PyErr (List GenImage))
    (validation_shortname : String)
    (validation_images : List (String × List GenImage)) :
    List PyV → Except PyErr (List (String × List GenImage))
  | [] => .ok validation_images
  | resolution :: rest => do
    let _ ← effective_resolution deepfloyd_stage2 controlnet validation_using_datasets
      validation_input_image resolution
    let d1 :=
      if dHasKey validation_images validation_shortname then validation_images
      else dset validation_images validation_shortname []
    let d2 :=
      match gather resolution with
      | .error _ => d1
      | .ok embeds =>
        match gen resolution embeds with
        | .error _ => d1
        | .ok imgs =>
          dset d1 validation_shortname ((dget d1 validation_shortname).getD [] ++ imgs)
    validate_prompt_loop deepfloyd_stage2 controlnet validation_using_datasets
      validation_input_image gather gen validation_shortname d2 rest

/-- Embedding of Validation.validate_prompt for one prompt: iterate the
configured resolutions starting from an empty dict. -/
def validate_prompt (deepfloyd_stage2 controlnet validation_using_datasets : Bool)
    (validation_input_image : Option (Nat × Nat))
    (gather : PyV → Except PyErr (List (String × PyV)))
    (gen : PyV → List (String × PyV) → Except PyErr (List GenImage))
    (validation_shortname : String) (resolutions : List PyV) :
    Except PyErr (List (String × List GenImage)) :=
  validate_prompt_loop deepfloyd_stage2 controlnet validation_using_datasets
    validation_input_image gather gen validation_shortname [] resolutions

/-- Embedding of the prompt loop of Validation.process_prompts
(validation.py lines 1121-1158) for the text-prompt path (no
validation_image_inputs override): each (shortname, prompt) content pair
is validated over all resolutions and the resulting per-prompt dict is
merged into the cumulative dict with dict.update.  The gather and gen
collaborators now also receive the prompt. -/
def process_prompts_loop (resolutions : List PyV)
    (gather : String → PyV → Except PyErr (List (String × PyV)))
    (gen : String → PyV → List (String × PyV) → Except PyErr (List GenImage))
    (validation_images : List (String × List GenImage)) :
    List (String × String) → Except PyErr (List (String × List GenImage))
  | [] => .ok validation_images
  | content :: rest => do
    let result ← validate_prompt false false false none
      (gather content.2) (gen content.2) content.1 resolutions
    process_prompts_loop resolutions gather gen
      (dUpdate validation_images result) rest

/-- Embedding of Validation.process_prompts from an empty cumulative dict. -/
def process_prompts (contents : List (String × String)) (resolutions : List PyV)
    (gather : String → PyV → Except PyErr (List (String × PyV)))
    (gen : String → PyV → List (String × PyV) → Except PyErr (List GenImage)) :
    Except PyErr (List (String × List GenImage)) :=
  process_prompts_loop resolutions gather gen [] contents

/-- Pipeline handles are abstract. -/
abbrev Pipeline := Nat

/-- The construction retry loop of Validation.setup_pipeline
(validation.py lines 1062-1084): attempt is incremented at the top of each
iteration, a raising construction is logged and retried while attempt < 3,
and the first successful construction breaks out.  The construct argument
models the external pipeline construction (pipeline_cls.from_pretrained or
the smoldit constructor) at a given attempt number. -/
def setup_pipeline_tries (construct : Nat → Except PyErr Pipeline) :
    Nat → Nat → Option Pipeline
  | _, 0 => none
  | attempt, remaining + 1 =>
    match construct (attempt + 1) with
    | .ok p => some p
    | .error _ => setup_pipeline_tries construct (attempt + 1) remaining

/-- The while loop starting from attempt = 0 runs while attempt < 3, so it
performs exactly 3 - attempt more iterations. -/
def setup_pipeline_attempts (construct : Nat → Except PyErr Pipeline)
    (attempt : Nat) : Option Pipeline :=
  setup_pipeline_tries construct attempt (3 - attempt)

/-- Configuration read by the tail of setup_pipeline. -/
structure PipelineArgs where
  validation_torch_compile : Bool
  deepspeed : Bool
  lora_is_lycoris : Bool
  unet_uncompiled : Bool
  transformer_uncompiled : Bool

/-- Embedding of Validation.setup_pipeline (validation.py lines 953-1113)
after the EMA swap (lines 954-968, an external side effect on model
buffers that no claim observes).  Returns the final value of the pipeline
attribute together with the call outcome.  If the pipeline attribute is
already set the construction block is skipped entirely and line 1112 moves
the existing pipeline to the inference device (modelled as identity).  If
it is unset, construction is attempted at most 3 times; when every attempt
raises, the pipeline attribute is still None afterwards, so the attribute
accesses on self.pipeline in the torch-compile block (lines 1091-1110, if
enabled) or the self.pipeline.to call at line 1112 raise AttributeError,
which propagates to the caller. -/
def setup_pipeline (args : PipelineArgs) (construct : Nat → Except PyErr Pipeline)
    (pipeline0 : Option Pipeline) : Option Pipeline × Except PyErr Unit :=
  match pipeline0 with
  | some p => (some p, .ok ())
  | none =>
    let p1 := setup_pipeline_attempts construct 0
    if args.validation_torch_compile && !args.deepspeed && !args.lora_is_lycoris
        && (args.unet_uncompiled || args.transformer_uncompiled) && p1.isNone then
      (p1, .error .attributeError)
    else
      match p1 with
      | some p => (some p, .ok ())
      | none => (none, .error .attributeError)

/-- Configuration read by finalize_validation. -/
structure FinalizeArgs where
  use_ema : Bool
  keep_vae_loaded : Bool
  vae_cache_ondemand : Bool

/-- The attributes of the Validation object that finalize_validation
reads or writes. -/
structure FinalizeState where
  vae : Option Nat
  pipeline : Option Pipeline

/-- Embedding of Validation.finalize_validation (validation.py lines
1453-1472).  The EMA restoration (lines 1455-1466) mutates external model
buffers only and is modelled as a no-op on this state.  When neither
keep_vae_loaded nor vae_cache_ondemand is set, line 1468 calls
self.vae.to, which raises AttributeError whenever the vae attribute is
already None; otherwise the vae is moved (identity) and cleared.  The
pipeline attribute is unconditionally set to None afterwards, and the
device cache flush at lines 1471-1472 is an external side effect. -/
def finalize_validation (args : FinalizeArgs) (validation_type : String)
    (s : FinalizeState) : Except PyErr FinalizeState := do
  let mut s := s
  if validation_type == "intermediary" && args.use_ema then
    pure ()
  if !args.keep_vae_loaded && !args.vae_cache_ondemand then
    match s.vae with
    | none => throw .attributeError
    | some _ => s := { s with vae := none }
  s := { s with pipeline := none }
  return s

/-- RGB colors. -/
abbrev Color := Nat × Nat × Nat

/-- A PIL image: a size and the pixel grid (total over coordinates, read
only inside the size). -/
structure PImage where
  w : Nat
  h : Nat
  pix : Nat → Nat → Color

/-- PIL Image.new with a constant fill color. -/
def imageNew (w h : Nat) (c : Color) : PImage :=
  { w := w, h := h, pix := fun _ _ => c }

/-- PIL Image.paste of src onto base at offset (x0, y0): pixels inside the
pasted rectangle come from src, all others keep the base value; the canvas
size never changes. -/
def imagePaste (base src : PImage) (x0 y0 : Nat) : PImage :=
  { base with
    pix := fun x y =>
      if x0 ≤ x ∧ x < x0 + src.w ∧ y0 ≤ y ∧ y < y0 + src.h then
        src.pix (x - x0) (y - y0)
      else
        base.pix x y }

/-- An abstract ImageDraw text renderer: given the text and its anchor it
rewrites the pixel grid of the canvas in place.  PIL never changes the
canvas size when drawing, which the way it is applied below encodes. -/
abbrev TextRenderer := String → Nat × Nat → (Nat → Nat → Color) → Nat → Nat → Color

/-- The intermediate canvas of Validation.stitch_benchmark_image after the
two paste calls (validation.py lines 740-751): a white canvas of width
2 * W2 + separator_width (W2 the validation image width) and of the
validation image height, with the benchmark image pasted at (0, 0) and the
validation image pasted at (benchmark width + separator_width, 0). -/
def stitch_benchmark_pasted (validation_image_result benchmark_image : PImage)
    (separator_width : Nat) : PImage :=
  let new_width := validation_image_result.w * 2 + separator_width
  let new_height := validation_image_result.h
  let new_image := imageNew new_width new_height (255, 255, 255)
  let new_image := imagePaste new_image benchmark_image 0 0
  imagePaste new_image validation_image_result
    (benchmark_image.w + separator_width) 0

/-- Embedding of Validation.stitch_benchmark_image (validation.py lines
731-788), with the font-dependent caption rendering abstracted by a
TextRenderer.  After the pastes, the caption base model is drawn at
(10, 10), the caption checkpoint at (validation width + separator + 10, 10),
and the separator columns x = validation width + i for i < separator_width
are overdrawn in light gray over the full canvas height. -/
def stitch_benchmark_image (drawText : TextRenderer)
    (validation_image_result benchmark_image : PImage)
    (separator_width : Nat) : PImage :=
  let canvas := stitch_benchmark_pasted validation_image_result benchmark_image
    separator_width
  let canvas := { canvas with pix := drawText "base model" (10, 10) canvas.pix }
  let canvas :=
    { canvas with
      pix := drawText "checkpoint"
        (validation_image_result.w + separator_width + 10, 10) canvas.pix }
  { canvas with
    pix := fun x y =>
      if validation_image_result.w ≤ x ∧
          x < validation_image_result.w + separator_width then
        (200, 200, 200)
      else
        canvas.pix x y }

/-- A concrete 200 by 50 validation image used for the stitching claims. -/
def valImg : PImage := { w := 200, h := 50, pix := fun _ _ => (2, 2, 2) }

/-- A concrete 100 by 50 benchmark image used for the stitching claims. -/
def benchImg : PImage := { w := 100, h := 50, pix := fun _ _ => (1, 1, 1) }

/-- The images accumulated for one prompt across resolutions: the
concatenation of the image lists of exactly those resolutions at which
both the embedding resolution and the generation call succeed. -/
def successful_images (gather : PyV → Except PyErr (List (String × PyV)))
    (gen : PyV → List (String × PyV) → Except PyErr (List GenImage))
    (resolutions : List PyV) : List GenImage :=
  (resolutions.filterMap (fun r => ((gather r).bind (gen r)).toOption)).flatten

/-- Cache outcome for the C2 witness: the second prompt at the first
resolution receives a 3-element return without a mask, every other pair a
full 4-element return. -/
def c2CacheResult (prompt : String) (resolution : PyV) : PyV :=
  if prompt == "p2" &&
      (match resolution with
       | .tup (.int 512) _ => true
       | _ => false) then
    .list [.tensor 2, .tensor 3, .tensor 4]
  else
    .list [.tensor 2, .tensor 3, .tensor 4, .tensor 5]

/-- Embedding resolver for the C2 witness: flux with masked-attention
training, so the 3-element return fails the required-mask assertion. -/
def c2Gather (prompt : String) (resolution : PyV) :
    Except PyErr (List (String × PyV)) :=
  gather_prompt_embeds "flux" true (.tensor 0) (.tensor 1) (.tensor 9)
    (c2CacheResult prompt resolution)

/-- Generation outcome for the C2 witness: one image per successful pair. -/
def c2Gen (prompt : String) (resolution : PyV)
    (_embeds : List (String × PyV)) : Except PyErr (List GenImage) :=
  if prompt == "p1" then
    match resolution with
    | .tup (.int 512) _ => .ok [11]
    | _ => .ok [12]
  else
    .ok [22]

/-- The embedding bundle produced by c2Gather on every successful pair. -/
def c2Embeds : List (String × PyV) :=
  [("pooled_prompt_embeds", .tensor 3),
   ("negative_pooled_prompt_embeds", .tensor 1),
   ("prompt_embeds", .tensor 2),
   ("negative_prompt_embeds", .tensor 0),
   ("prompt_mask", .tensor 5),
   ("negative_mask", .tensor 9)]

/-- Claim C1 (code bug): the gate behaves as claimed on the main process
(global_step 100 with validation interval 50, resume step 1 and gradient
accumulation 1 fires; global_step 90 under the same configuration does
not; validation_type final fires regardless of step), but on a non-main
process the source reads the undefined attribute self.deepseed (a
misspelling of deepspeed), so instead of returning true when the deepspeed
mode is active (or false when it is not) the method raises AttributeError. -/
theorem C1_should_perform_validation_gate :
    (should_perform_validation
        { args := { validation_steps := 50, gradient_accumulation_steps := 1 },
          global_step := 100, global_resume_step := 1,
          is_main_process := true, deepspeed := false }
        100 ["a prompt"] "intermediary" = .ok true)
    ∧ (should_perform_validation
        { args := { validation_steps := 50, gradient_accumulation_steps := 1 },
          global_step := 90, global_resume_step := 1,
          is_main_process := true, deepspeed := false }
        90 ["a prompt"] "intermediary" = .ok false)
    ∧ (should_perform_validation
        { args := { validation_steps := 50, gradient_accumulation_steps := 1 },
          global_step := 93, global_resume_step := 1,
          is_main_process := true, deepspeed := false }
        93 ["a prompt"] "final" = .ok true)
    ∧ (should_perform_validation
        { args := { validation_steps := 50, gradient_accumulation_steps := 1 },
          global_step := 100, global_resume_step := 1,
          is_main_process := false, deepspeed := true }
        100 ["a prompt"] "final" = .error .attributeError)
    ∧ (should_perform_validation
        { args := { validation_steps := 50, gradient_accumulation_steps := 1 },
          global_step := 100, global_resume_step := 1,
          is_main_process := false, deepspeed := false }
        100 ["a prompt"] "intermediary" = .error .attributeError) :=
  ⟨rfl, rfl, rfl, rfl, rfl⟩

/-- Claim C4 (code bug): pipeline construction is indeed attempted at most
3 times (a constructor that first succeeds at attempt 4 is never reached,
and one that succeeds at attempt 2 is used), but when all 3 attempts
raise, setup_pipeline does not return normally with the pipeline unset:
the pipeline attribute is still None and the subsequent
self.pipeline.to(...) call raises AttributeError, which propagates to
run_validations and its caller instead of the validation pass being
treated as skipped. -/
theorem C4_setup_pipeline_after_three_failures :
    (setup_pipeline
        { validation_torch_compile := false, deepspeed := false,
          lora_is_lycoris := false, unet_uncompiled := true,
          transformer_uncompiled := false }
        (fun _ => .error .exn) none
      = (none, .error .attributeError))
    ∧ (setup_pipeline
        { validation_torch_compile := false, deepspeed := false,
          lora_is_lycoris := false, unet_uncompiled := true,
          transformer_uncompiled := false }
        (fun attempt => if attempt = 2 then .ok 7 else .error .exn) none
      = (some 7, .ok ()))
    ∧ (setup_pipeline
        { validation_torch_compile := false, deepspeed := false,
          lora_is_lycoris := false, unet_uncompiled := true,
          transformer_uncompiled := false }
        (fun attempt => if attempt = 4 then .ok 9 else .error .exn) none
      = (none, .error .attributeError))
    ∧ (∀ construct : Nat → Except PyErr Pipeline,
        setup_pipeline_attempts construct 3 = none) :=
  ⟨rfl, rfl, rfl, fun _ => rfl⟩

/-- Claim C3 counterexample: for a 3-element cache return under the sdxl
family, the returned bundle consists of exactly the pooled, negative
pooled, prompt and negative prompt embeddings; no time_ids field is
produced, contrary to the claim that a 3-tuple additionally yields
time_ids. -/
theorem C3_three_tuple_has_no_time_ids :
    gather_prompt_embeds "sdxl" false (.tensor 0) (.tensor 1) .pynone
      (.list [.tensor 2, .tensor 3, .tensor 4])
    = .ok [("pooled_prompt_embeds", .tensor 3),
           ("negative_pooled_prompt_embeds", .tensor 1),
           ("prompt_embeds", .tensor 2),
           ("negative_prompt_embeds", .tensor 0)] := rfl

/-- Claim C6 counterexample: parsing the square token 512 yields a pair of
the original strings, not the claimed pair of integers. -/
theorem C6_square_token_yields_strings :
    parse_validation_resolution "sdxl" (.str "512")
      = .ok (.tup (.str "512") (.str "512"))
    ∧ PyV.str "512" ≠ PyV.int 512 :=
  ⟨rfl, fun h => nomatch h⟩

/-- Claim C6 as amended: resolution parsing returns an ordered sequence of
pairs with duplicates and order preserved and no deduplication, but square
tokens given as strings yield pairs of the original strings (and an int
input yields an int pair), while WIDTHxHEIGHT tokens yield integer pairs:
parsing 512 gives the string pair, 512x768 gives (512, 768) as ints, and
512,768x768 gives the string pair followed by the int pair. -/
theorem C6_resolution_parsing_shapes :
    get_validation_resolutions "sdxl" (.str "512")
      = .ok [.tup (.str "512") (.str "512")]
    ∧ get_validation_resolutions "sdxl" (.str "512x768")
      = .ok [.tup (.int 512) (.int 768)]
    ∧ get_validation_resolutions "sdxl" (.str "512,768x768")
      = .ok [.tup (.str "512") (.str "512"), .tup (.int 768) (.int 768)]
    ∧ get_validation_resolutions "sdxl" (.str "512x768,512x768")
      = .ok [.tup (.int 512) (.int 768), .tup (.int 512) (.int 768)]
    ∧ get_validation_resolutions "sdxl" (.str "768x768,512x512")
      = .ok [.tup (.int 768) (.int 768), .tup (.int 512) (.int 512)]
    ∧ get_validation_resolutions "sdxl" (.int 640)
      = .ok [.tup (.int 640) (.int 640)] :=
  ⟨rfl, rfl, rfl, rfl, rfl, rfl⟩

/-- Claim C5 counterexample: in the default configuration (keep_vae_loaded
and vae_cache_ondemand both unset) the first finalize_validation call
succeeds, clearing both the vae and the pipeline, but a second call
immediately afterwards raises AttributeError because it calls .to on the
cleared vae attribute; finalization is therefore not idempotent for every
configuration. -/
theorem C5_second_finalize_raises :
    finalize_validation
        { use_ema := false, keep_vae_loaded := false, vae_cache_ondemand := false }
        "final" { vae := some 0, pipeline := some 1 }
      = .ok { vae := none, pipeline := none }
    ∧ finalize_validation
        { use_ema := false, keep_vae_loaded := false, vae_cache_ondemand := false }
        "final" { vae := none, pipeline := none }
      = .error .attributeError :=
  ⟨rfl, rfl⟩

theorem charsContain_mem {c : Char} :
    ∀ {xs : List Char}, charsContain [c] xs = true → c ∈ xs := by
  intro xs
  induction xs with
  | nil => intro h; simp [charsContain] at h
  | cons b rest ih =>
    intro h
    simp only [charsContain, charsBeginWith, Bool.or_eq_true] at h
    rcases h with h | h
    · have : c = b := by
        by_contra hne
        simp [hne] at h
      exact this ▸ List.mem_cons_self c rest
    · exact List.mem_cons_of_mem _ (ih h)

theorem pyIsDigit_false_of_x {s : String}
    (h : charsContain ['x'] s.data = true) : pyIsDigit s = false := by
  have hx : 'x' ∈ s.data := charsContain_mem h
  have hall : s.data.all Char.isDigit = false := by
    rw [Bool.eq_false_iff]
    intro hall
    have := (List.all_eq_true.mp hall) _ hx
    simp [Char.isDigit] at this
  simp [pyIsDigit, hall]

theorem parse_df2_digit_small (mt : String)
    (hdf : pyInStr "deepfloyd-stage2" mt = true) (s : String) (n : Int)
    (hdig : pyIsDigit s = true) (hint : pyIntStr s = .ok n) (hlt : n < 256) :
    parse_validation_resolution mt (.str s) = .error (.valueError df2Msg) := by
  simp [parse_validation_resolution, hdf, hdig, pyIntOf, hint, hlt,
    Bind.bind, Except.bind, throw, throwThe, MonadExceptOf.throw,
    Functor.map, Except.map, pure, Except.pure]

theorem parse_df2_pair_small (mt : String)
    (hdf : pyInStr "deepfloyd-stage2" mt = true) (s : String)
    (p0 p1 : List Char) (rest : List (List Char)) (a b : Int)
    (hx : charsContain ['x'] s.data = true)
    (hsplit : splitOnChar 'x' s.data = p0 :: p1 :: rest)
    (ha : pyIntChars p0 = .ok a) (hb : pyIntChars p1 = .ok b)
    (hlt : a < 256 ∨ b < 256) :
    parse_validation_resolution mt (.str s) = .error (.valueError df2Msg) := by
  have hnd : pyIsDigit s = false := pyIsDigit_false_of_x hx
  by_cases hA : a < 256
  · simp [parse_validation_resolution, hdf, hnd, hx, hsplit, ha, hA,
      Bind.bind, Except.bind, throw, throwThe, MonadExceptOf.throw,
      Functor.map, Except.map, pure, Except.pure]
  · rcases hlt with hlt | hlt
    · exact absurd hlt hA
    · simp [parse_validation_resolution, hdf, hnd, hx, hsplit, ha, hb, hA, hlt,
        Bind.bind, Except.bind, throw, throwThe, MonadExceptOf.throw,
        Functor.map, Except.map, pure, Except.pure]

theorem parse_df2_int_small (mt : String)
    (hdf : pyInStr "deepfloyd-stage2" mt = true) (n : Int) (hlt : n < 256) :
    parse_validation_resolution mt (.int n) = .error (.valueError df2Msg) := by
  simp [parse_validation_resolution, hdf, pyIntOf, hlt,
    Bind.bind, Except.bind, throw, throwThe, MonadExceptOf.throw,
    Functor.map, Except.map, pure, Except.pure]

/-- Claim C7: under a DeepFloyd stage 2 model_type, any resolution token
whose square value, or either side of a WIDTHxHEIGHT token, is below 256
causes parse_validation_resolution to raise the ValueError that plays the
role of the ConfigurationError of the spec; in particular parsing 128
raises. -/
theorem C7_df2_minimum_resolution (mt : String)
    (hdf : pyInStr "deepfloyd-stage2" mt = true) :
    (∀ s n, pyIsDigit s = true → pyIntStr s = .ok n → n < 256 →
      parse_validation_resolution mt (.str s) = .error (.valueError df2Msg))
    ∧ (∀ s p0 p1 rest a b, charsContain ['x'] s.data = true →
        splitOnChar 'x' s.data = p0 :: p1 :: rest →
        pyIntChars p0 = .ok a → pyIntChars p1 = .ok b →
        (a < 256 ∨ b < 256) →
        parse_validation_resolution mt (.str s) = .error (.valueError df2Msg))
    ∧ (∀ n : Int, n < 256 →
        parse_validation_resolution mt (.int n) = .error (.valueError df2Msg)) :=
  ⟨fun s n h1 h2 h3 => parse_df2_digit_small mt hdf s n h1 h2 h3,
   fun s p0 p1 rest a b h1 h2 h3 h4 h5 =>
     parse_df2_pair_small mt hdf s p0 p1 rest a b h1 h2 h3 h4 h5,
   fun n h1 => parse_df2_int_small mt hdf n h1⟩

/-- Claim C7 witness: parsing 128 and 512x128 under the DeepFloyd stage 2
model_type both raise the minimum-resolution ValueError. -/
theorem C7_df2_minimum_resolution_witness :
    parse_validation_resolution "deepfloyd-stage2" (.str "128")
      = .error (.valueError df2Msg)
    ∧ parse_validation_resolution "deepfloyd-stage2" (.str "512x128")
      = .error (.valueError df2Msg) :=
  ⟨(C7_df2_minimum_resolution "deepfloyd-stage2" (by rfl)).1 "128" 128
      (by rfl) (by rfl) (by decide),
   (C7_df2_minimum_resolution "deepfloyd-stage2" (by rfl)).2.1 "512x128"
      "512".data "128".data [] 512 128 (by rfl) (by rfl) (by rfl) (by rfl)
      (by decide)⟩

/-- Claim C10: a string token that is neither all digits nor contains the
character x falls through both branches of parse_validation_resolution and
returns Python None without raising, so get_validation_resolutions can
return a list containing None entries (shown concretely for abc,512); and
for an all-digit string token the returned pair holds the original
strings, not converted integers. -/
theorem C10_fallthrough_none_and_string_pairs (mt : String) :
    (∀ s, pyIsDigit s = false → charsContain ['x'] s.data = false →
      parse_validation_resolution mt (.str s) = .ok .pynone)
    ∧ (∀ s, pyInStr "deepfloyd-stage2" mt = false → pyIsDigit s = true →
      parse_validation_resolution mt (.str s) = .ok (.tup (.str s) (.str s)))
    ∧ get_validation_resolutions "sdxl" (.str "abc,512")
      = .ok [.pynone, .tup (.str "512") (.str "512")] := by
  refine ⟨?_, ?_, by rfl⟩
  · intro s h1 h2
    simp [parse_validation_resolution, h1, h2, pure, Except.pure,
      Bind.bind, Except.bind]
  · intro s hdf h1
    simp [parse_validation_resolution, hdf, h1, pure, Except.pure,
      Bind.bind, Except.bind]

/-- Claim C10 witness: abc and 512.5 parse to None under the sdxl family,
and 512 parses to the pair of original strings. -/
theorem C10_fallthrough_none_and_string_pairs_witness :
    parse_validation_resolution "sdxl" (.str "abc") = .ok .pynone
    ∧ parse_validation_resolution "sdxl" (.str "512.5") = .ok .pynone
    ∧ parse_validation_resolution "sdxl" (.str "512")
      = .ok (.tup (.str "512") (.str "512")) :=
  ⟨(C10_fallthrough_none_and_string_pairs "sdxl").1 "abc" (by rfl) (by rfl),
   (C10_fallthrough_none_and_string_pairs "sdxl").1 "512.5" (by rfl) (by rfl),
   (C10_fallthrough_none_and_string_pairs "sdxl").2.1 "512" (by rfl) (by rfl)⟩

/-- Claim C9: whenever the model_type contains deepfloyd-stage2, the
constructor assigns the single-element list base-256 to
validation_resolutions no matter what validation_resolution is configured
(even one the parser would reject, such as 128, which
get_validation_resolutions turns into the minimum-resolution ValueError),
and the generation width and height with an input image are 4 times the
image dimensions. -/
theorem C9_df2_base256_and_4x_dimensions :
    (∀ mt vr, pyInStr "deepfloyd-stage2" mt = true →
      init_validation_resolutions mt vr = .ok [.str "base-256"])
    ∧ (∀ mt, pyInStr "deepfloyd-stage2" mt = true →
      get_validation_resolutions mt (.str "128") = .error (.valueError df2Msg))
    ∧ (∀ (cn ud : Bool) (w h : Nat) (r : PyV),
      effective_resolution true cn ud (some (w, h)) r
        = .ok (.int (w * 4), .int (h * 4))) := by
  refine ⟨?_, ?_, ?_⟩
  · intro mt vr hdf
    simp [init_validation_resolutions, hdf]
  · intro mt hdf
    have h128 := parse_df2_digit_small mt hdf "128" 128 (by rfl) (by rfl) (by decide)
    simp [get_validation_resolutions, h128, Bind.bind, Except.bind,
      show charsContain [','] "128".data = false from rfl]
  · intro cn ud w h r
    rfl

/-- Claim C9 witness: with model_type deepfloyd-stage2 and the configured
resolution 128, the constructor still assigns base-256 although the parser
would raise on 128, and a 64 by 64 input image generates at 256 by 256. -/
theorem C9_df2_base256_and_4x_dimensions_witness :
    init_validation_resolutions "deepfloyd-stage2" (.str "128")
      = .ok [.str "base-256"]
    ∧ get_validation_resolutions "deepfloyd-stage2" (.str "128")
      = .error (.valueError df2Msg)
    ∧ effective_resolution true false false (some (64, 64)) (.str "base-256")
      = .ok (.int 256, .int 256) :=
  ⟨(C9_df2_base256_and_4x_dimensions).1 "deepfloyd-stage2" (.str "128") (by rfl),
   (C9_df2_base256_and_4x_dimensions).2.1 "deepfloyd-stage2" (by rfl),
   (C9_df2_base256_and_4x_dimensions).2.2 false false 64 64 (.str "base-256")⟩

/-- Claim C3 as amended: for the sdxl/sd3/kolors/flux families the
resolver maps the cache arity to the returned field set as follows: a
2-element return yields the pooled, negative pooled, prompt and negative
prompt embeddings only; a 3-element return yields exactly the same field
set, the time ids being unpacked but never copied into the returned
bundle; a 4-element return also yields that same field set unless the
family requires an attention mask (flux with masked-attention training),
in which case prompt_mask and negative_mask are added; and any other
arity (0, 1 or 5 elements) fails with the unexpected-embedding-shape
ValueError. -/
theorem C3_arity_to_field_set (family : String)
    (hfam : family = "sdxl" ∨ family = "sd3" ∨ family = "kolors" ∨ family = "flux")
    (masked : Bool) (hmask : family = "flux" → masked = false)
    (a b p q t m : Nat) (nm : PyV) :
    (gather_prompt_embeds family masked (.tensor a) (.tensor b) nm
        (.list [.tensor p, .tensor q])
      = .ok [("pooled_prompt_embeds", .tensor q),
             ("negative_pooled_prompt_embeds", .tensor b),
             ("prompt_embeds", .tensor p),
             ("negative_prompt_embeds", .tensor a)])
    ∧ (gather_prompt_embeds family masked (.tensor a) (.tensor b) nm
        (.list [.tensor p, .tensor q, .tensor t])
      = .ok [("pooled_prompt_embeds", .tensor q),
             ("negative_pooled_prompt_embeds", .tensor b),
             ("prompt_embeds", .tensor p),
             ("negative_prompt_embeds", .tensor a)])
    ∧ (gather_prompt_embeds family masked (.tensor a) (.tensor b) nm
        (.list [.tensor p, .tensor q, .tensor t, .tensor m])
      = .ok [("pooled_prompt_embeds", .tensor q),
             ("negative_pooled_prompt_embeds", .tensor b),
             ("prompt_embeds", .tensor p),
             ("negative_prompt_embeds", .tensor a)])
    ∧ (gather_prompt_embeds "flux" true (.tensor a) (.tensor b) nm
        (.list [.tensor p, .tensor q, .tensor t, .tensor m])
      = .ok [("pooled_prompt_embeds", .tensor q),
             ("negative_pooled_prompt_embeds", .tensor b),
             ("prompt_embeds", .tensor p),
             ("negative_prompt_embeds", .tensor a),
             ("prompt_mask", .tensor m),
             ("negative_mask", nm)])
    ∧ (gather_prompt_embeds family masked (.tensor a) (.tensor b) nm
        (.list [])
      = .error (.valueError "Unexpected number of embeddings returned from cache"))
    ∧ (gather_prompt_embeds family masked (.tensor a) (.tensor b) nm
        (.list [.tensor p])
      = .error (.valueError "Unexpected number of embeddings returned from cache"))
    ∧ (gather_prompt_embeds family masked (.tensor a) (.tensor b) nm
        (.list [.tensor p, .tensor q, .tensor t, .tensor m, .tensor a])
      = .error (.valueError "Unexpected number of embeddings returned from cache")) := by
  rcases hfam with h | h | h | h
  · subst h; exact ⟨rfl, rfl, rfl, rfl, rfl, rfl, rfl⟩
  · subst h; exact ⟨rfl, rfl, rfl, rfl, rfl, rfl, rfl⟩
  · subst h; exact ⟨rfl, rfl, rfl, rfl, rfl, rfl, rfl⟩
  · subst h
    have hm := hmask rfl
    subst hm
    exact ⟨rfl, rfl, rfl, rfl, rfl, rfl, rfl⟩

/-- Claim C3 witness: the amended arity mapping at the sdxl family with
concrete tensors, for a 2-element and a 5-element cache return. -/
theorem C3_arity_to_field_set_witness :
    gather_prompt_embeds "sdxl" false (.tensor 0) (.tensor 1) .pynone
        (.list [.tensor 2, .tensor 3])
      = .ok [("pooled_prompt_embeds", .tensor 3),
             ("negative_pooled_prompt_embeds", .tensor 1),
             ("prompt_embeds", .tensor 2),
             ("negative_prompt_embeds", .tensor 0)]
    ∧ gather_prompt_embeds "sdxl" false (.tensor 0) (.tensor 1) .pynone
        (.list [.tensor 2, .tensor 3, .tensor 4, .tensor 5, .tensor 0])
      = .error (.valueError "Unexpected number of embeddings returned from cache") :=
  ⟨(C3_arity_to_field_set "sdxl" (Or.inl rfl) false
      (fun h => absurd h (by decide)) 0 1 2 3 4 5 .pynone).1,
   (C3_arity_to_field_set "sdxl" (Or.inl rfl) false
      (fun h => absurd h (by decide)) 0 1 2 3 4 5 .pynone).2.2.2.2.2.2⟩

/-- Claim C5 as amended: after any successful finalize_validation call the
pipeline attribute is None; a second call immediately afterwards succeeds
and is a no-op when keep_vae_loaded or vae_cache_ondemand is set, but with
both unset (the default) it raises AttributeError because the first call
cleared the vae attribute that the second tries to move to the cpu. -/
theorem C5_finalize_pipeline_cleared_and_second_call (args : FinalizeArgs)
    (vt : String) (s s1 : FinalizeState)
    (h : finalize_validation args vt s = .ok s1) :
    s1.pipeline = none
    ∧ (if args.keep_vae_loaded || args.vae_cache_ondemand then
        finalize_validation args vt s1 = .ok s1
      else
        finalize_validation args vt s1 = .error .attributeError) := by
  cases hk : args.keep_vae_loaded <;> cases ho : args.vae_cache_ondemand <;>
    simp only [finalize_validation, hk, ho] at h ⊢
  · cases hv : s.vae with
    | none =>
      rw [hv] at h
      simp [Bind.bind, Except.bind, throw, throwThe, MonadExceptOf.throw,
        pure, Except.pure] at h
    | some v =>
      rw [hv] at h
      simp [Bind.bind, Except.bind, throw, throwThe, MonadExceptOf.throw,
        pure, Except.pure] at h
      subst h
      simp [Bind.bind, Except.bind, throw, throwThe, MonadExceptOf.throw,
        pure, Except.pure]
  · simp [Bind.bind, Except.bind, pure, Except.pure] at h
    subst h
    simp [Bind.bind, Except.bind, pure, Except.pure]
  · simp [Bind.bind, Except.bind, pure, Except.pure] at h
    subst h
    simp [Bind.bind, Except.bind, pure, Except.pure]
  · simp [Bind.bind, Except.bind, pure, Except.pure] at h
    subst h
    simp [Bind.bind, Except.bind, pure, Except.pure]

/-- Claim C5 witness: with keep_vae_loaded set, a first call from a live
state clears the pipeline and a second call does not raise; with both vae
flags unset the second call raises AttributeError. -/
theorem C5_finalize_pipeline_cleared_and_second_call_witness :
    ({ vae := some 0, pipeline := none } : FinalizeState).pipeline = none
    ∧ finalize_validation
        { use_ema := false, keep_vae_loaded := true, vae_cache_ondemand := false }
        "final" { vae := some 0, pipeline := none }
      = .ok { vae := some 0, pipeline := none }
    ∧ finalize_validation
        { use_ema := false, keep_vae_loaded := false, vae_cache_ondemand := false }
        "final" { vae := none, pipeline := none }
      = .error .attributeError :=
  ⟨(C5_finalize_pipeline_cleared_and_second_call
      { use_ema := false, keep_vae_loaded := true, vae_cache_ondemand := false }
      "final" { vae := some 0, pipeline := some 1 }
      { vae := some 0, pipeline := none } rfl).1,
   (C5_finalize_pipeline_cleared_and_second_call
      { use_ema := false, keep_vae_loaded := true, vae_cache_ondemand := false }
      "final" { vae := some 0, pipeline := some 1 }
      { vae := some 0, pipeline := none } rfl).2,
   (C5_finalize_pipeline_cleared_and_second_call
      { use_ema := false, keep_vae_loaded := false, vae_cache_ondemand := false }
      "final" { vae := some 0, pipeline := some 1 }
      { vae := none, pipeline := none } rfl).2⟩

/-- Claim C8 counterexample: for a benchmark image of width 100 and a
validation image of width 200 with the same height 50, the stitched image
has width 2 * 200 + 5 = 405, not the claimed 100 + 200 + 5 = 305; the
canvas width is twice the validation image width plus the separator, not
the sum of the two source widths. -/
theorem C8_stitched_width_is_not_w1_plus_w2 :
    (stitch_benchmark_image (fun _ _ pix => pix) valImg benchImg 5).w = 405
    ∧ (405 : Nat) ≠ 100 + 200 + 5 :=
  ⟨rfl, by decide⟩

/-- Claim C8 as amended: the stitched canvas has width 2 * W2 +
separator_width (W2 the validation image width, so the claimed W1 + W2 +
separator_width only when the two widths agree) and height equal to the
validation image height (equal to the maximum input height when the
heights agree); after the two paste calls and before the caption text and
separator are drawn on top, the benchmark pixel block sits unmodified at
x = 0 and the validation pixel block at x = W1 + separator_width. -/
theorem C8_stitch_dimensions_and_offsets (dt : TextRenderer)
    (val bench : PImage) (sep : Nat) :
    (stitch_benchmark_image dt val bench sep).w = val.w * 2 + sep
    ∧ (stitch_benchmark_image dt val bench sep).h = val.h
    ∧ (∀ x y, x < bench.w → y < bench.h →
        (stitch_benchmark_pasted val bench sep).pix x y = bench.pix x y)
    ∧ (∀ x y, x < val.w → y < val.h →
        (stitch_benchmark_pasted val bench sep).pix (bench.w + sep + x) y
          = val.pix x y) := by
  refine ⟨rfl, rfl, ?_, ?_⟩
  · intro x y hx hy
    simp only [stitch_benchmark_pasted, imagePaste, imageNew]
    split_ifs with h1 h2
    · exact absurd h1.1 (by omega)
    · simp
    · exact absurd ⟨by omega, by omega, by omega, by omega⟩ h2
  · intro x y hx hy
    simp only [stitch_benchmark_pasted, imagePaste, imageNew]
    split_ifs with h1 h2
    · congr 1
      omega
    · exact absurd ⟨by omega, by omega, by omega, by omega⟩ h1
    · exact absurd ⟨by omega, by omega, by omega, by omega⟩ h1

theorem validate_prompt_loop_spec
    (gather : PyV → Except PyErr (List (String × PyV)))
    (gen : PyV → List (String × PyV) → Except PyErr (List GenImage))
    (sn : String) :
    ∀ (rs : List (PyV × PyV)) (acc : List GenImage),
      validate_prompt_loop false false false none gather gen sn [(sn, acc)]
        (rs.map (fun r => PyV.tup r.1 r.2))
      = .ok [(sn, acc ++ successful_images gather gen
          (rs.map (fun r => PyV.tup r.1 r.2)))] := by
  intro rs
  induction rs with
  | nil =>
    intro acc
    simp [validate_prompt_loop, successful_images]
  | cons r rs ih =>
    intro acc
    simp only [List.map_cons, validate_prompt_loop, effective_resolution,
      dHasKey, dget, dset, List.find?, beq_self_eq_true, Option.isSome,
      Bind.bind, Except.bind, pure, Except.pure]
    cases hg : gather (.tup r.1 r.2) with
    | error e =>
      simp only [if_true]
      rw [ih]
      simp [successful_images, hg, Except.bind, List.filterMap_cons,
        Except.toOption, List.flatten_cons]
    | ok emb =>
      cases hn : gen (.tup r.1 r.2) emb with
      | error e =>
        simp only [hn, if_true]
        rw [ih]
        simp [successful_images, hg, hn, Except.bind, List.filterMap_cons,
          Except.toOption, List.flatten_cons]
      | ok imgs =>
        simp only [hn, if_true, beq_self_eq_true, eq_self_iff_true,
          List.map_cons, List.map_nil, Option.map_some, Option.getD_some]
        rw [ih]
        simp [successful_images, hg, hn, Except.bind, List.filterMap_cons,
          Except.toOption, List.flatten_cons]

theorem validate_prompt_spec
    (gather : PyV → Except PyErr (List (String × PyV)))
    (gen : PyV → List (String × PyV) → Except PyErr (List GenImage))
    (sn : String) (rs : List (PyV × PyV)) :
    validate_prompt false false false none gather gen sn
      (rs.map (fun r => PyV.tup r.1 r.2))
    = .ok (if rs.isEmpty then []
           else [(sn, successful_images gather gen
               (rs.map (fun r => PyV.tup r.1 r.2)))]) := by
  cases rs with
  | nil => simp [validate_prompt, validate_prompt_loop]
  | cons r rs =>
    simp only [validate_prompt, List.map_cons, validate_prompt_loop,
      effective_resolution, dHasKey, dget, dset, List.find?, Bind.bind,
      Except.bind, pure, Except.pure, List.isEmpty_cons, if_false,
      Bool.false_eq_true, List.nil_append]
    cases hg : gather (.tup r.1 r.2) with
    | error e =>
      simp only [if_true, Option.isSome_none, Bool.false_eq_true, if_false]
      rw [validate_prompt_loop_spec]
      simp [successful_images, hg, Except.bind, List.filterMap_cons,
        Except.toOption, List.flatten_cons]
    | ok emb =>
      cases hn : gen (.tup r.1 r.2) emb with
      | error e =>
        simp only [hn, if_true, Option.isSome_none, Bool.false_eq_true, if_false]
        rw [validate_prompt_loop_spec]
        simp [successful_images, hg, hn, Except.bind, List.filterMap_cons,
          Except.toOption, List.flatten_cons]
      | ok imgs =>
        simp only [hn, if_true, Option.isSome_none, Option.isSome_some,
          Bool.false_eq_true, if_false, beq_self_eq_true, eq_self_iff_true,
          List.map_cons, List.map_nil, Option.map_some, Option.getD_some,
          List.nil_append]
        rw [validate_prompt_loop_spec]
        simp [successful_images, hg, hn, Except.bind, List.filterMap_cons,
          Except.toOption, List.flatten_cons]

/-- Claim C2: within one prompt, each (prompt, resolution) pair at which
either embedding resolution or generation raises is skipped on its own
while every other resolution still contributes its images (the per-prompt
result maps the shortname to exactly the successfully generated images);
and in the 2 prompts by 2 resolutions matrix where embedding resolution
fails exactly at (prompt2, resolution1) the final image map holds both
images for prompt1 and only the second-resolution image for prompt2. -/
theorem C2_failed_pair_skipped_rest_processed :
    (∀ (gather : PyV → Except PyErr (List (String × PyV)))
       (gen : PyV → List (String × PyV) → Except PyErr (List GenImage))
       (sn : String) (rs : List (PyV × PyV)),
      validate_prompt false false false none gather gen sn
          (rs.map (fun r => PyV.tup r.1 r.2))
        = .ok (if rs.isEmpty then []
               else [(sn, successful_images gather gen
                   (rs.map (fun r => PyV.tup r.1 r.2)))]))
    ∧ (∀ (s1 s2 p1 p2 : String) (w1 h1 w2 h2 : PyV)
         (gather : String → PyV → Except PyErr (List (String × PyV)))
         (gen : String → PyV → List (String × PyV) → Except PyErr (List GenImage))
         (e11 e12 e22 : List (String × PyV)) (err : PyErr)
         (i11 i12 i22 : List GenImage),
        s1 ≠ s2 →
        gather p1 (.tup w1 h1) = .ok e11 →
        gather p1 (.tup w2 h2) = .ok e12 →
        gather p2 (.tup w1 h1) = .error err →
        gather p2 (.tup w2 h2) = .ok e22 →
        gen p1 (.tup w1 h1) e11 = .ok i11 →
        gen p1 (.tup w2 h2) e12 = .ok i12 →
        gen p2 (.tup w2 h2) e22 = .ok i22 →
        process_prompts [(s1, p1), (s2, p2)] [.tup w1 h1, .tup w2 h2] gather gen
          = .ok [(s1, i11 ++ i12), (s2, i22)]) := by
  refine ⟨fun gather gen sn rs => validate_prompt_spec gather gen sn rs, ?_⟩
  intro s1 s2 p1 p2 w1 h1 w2 h2 gather gen e11 e12 e22 err i11 i12 i22
    hs hg11 hg12 hg21 hg22 hn11 hn12 hn22
  have hbeq : (s1 == s2) = false := by
    simp [hs]
  simp [process_prompts, process_prompts_loop, validate_prompt,
    validate_prompt_loop, effective_resolution, dHasKey, dget, dset, dUpdate,
    List.find?, hg11, hg12, hg21, hg22, hn11, hn12, hn22, hbeq,
    Bind.bind, Except.bind, pure, Except.pure]

/-- Claim C2 witness: a concrete 2 prompts by 2 resolutions matrix under
flux masked-attention training where the cache returns a maskless
3-element bundle for (p2, 512x512) — so embedding resolution fails that
single pair with the required-mask AssertionError — yields exactly the
images of the three surviving pairs, and the failing resolver call indeed
raises the assertion. -/
theorem C2_failed_pair_skipped_rest_processed_witness :
    process_prompts [("shortname1", "p1"), ("shortname2", "p2")]
        [.tup (.int 512) (.int 512), .tup (.int 768) (.int 768)] c2Gather c2Gen
      = .ok [("shortname1", [11, 12]), ("shortname2", [22])]
    ∧ c2Gather "p2" (.tup (.int 512) (.int 512)) = .error .assertionError :=
  ⟨C2_failed_pair_skipped_rest_processed.2 "shortname1" "shortname2" "p1" "p2"
      (.int 512) (.int 512) (.int 768) (.int 768) c2Gather c2Gen
      c2Embeds c2Embeds c2Embeds .assertionError [11] [12] [22]
      (by decide) rfl rfl rfl rfl rfl rfl rfl,
   rfl⟩

/-- Claim C8 witness: the amended stitching layout at the concrete 100 by
50 benchmark and 200 by 50 validation images with separator width 5: the
canvas is 405 wide, the benchmark pixel block starts at x = 0 and the
validation pixel block at x = 105. -/
theorem C8_stitch_dimensions_and_offsets_witness :
    (stitch_benchmark_image (fun _ _ pix => pix) valImg benchImg 5).w
      = valImg.w * 2 + 5
    ∧ (stitch_benchmark_pasted valImg benchImg 5).pix 0 0 = benchImg.pix 0 0
    ∧ (stitch_benchmark_pasted valImg benchImg 5).pix (benchImg.w + 5 + 0) 0
      = valImg.pix 0 0 :=
  ⟨(C8_stitch_dimensions_and_offsets (fun _ _ pix => pix) valImg benchImg 5).1,
   (C8_stitch_dimensions_and_offsets (fun _ _ pix => pix) valImg benchImg 5).2.2.1
      0 0 (by decide) (by decide),
   (C8_stitch_dimensions_and_offsets (fun _ _ pix => pix) valImg benchImg 5).2.2.2
      0 0 (by decide) (by decide)⟩
